import Mathlib

/-!
Shallow embedding of the quota-provider engine
(packages/desktop/src-tauri/src/quota_providers.rs).

Modelling conventions:
- JSON values (serde_json::Value) are the inductive type JsonValue; numbers
  carry a rational, which idealises the f64 payload arithmetic exactly.
- i64 arithmetic of the source is modelled on Int, with Rust truncating
  division written Int.tdiv and Rust remainder written Int.tmod.
- The f64 round method of Rust (round half away from zero) is rust_round.
- Everything effectful (credential-store files, the clock, HTTP calls, the
  chrono local-time formatter and RFC3339 parser of the chrono crate) is an
  explicit field of Env; each fetch function is a pure function of Env.
- Fallible Rust functions returning anyhow::Result are Except String.
-/

/-- Model of serde_json::Value. Objects are association lists in key order. -/
inductive JsonValue where
  | null
  | bool (b : Bool)
  | num (q : ℚ)
  | str (s : String)
  | arr (elems : List JsonValue)
  | obj (fields : List (String × JsonValue))

/-- First-match key lookup in a JSON object, as serde_json map lookup. -/
def lookupField : List (String × JsonValue) → String → Option JsonValue
  | [], _ => none
  | (k, v) :: rest, key => if k = key then some v else lookupField rest key

/-- Model of Value::get on an object key; non-objects yield none. -/
def JsonValue.get : JsonValue → String → Option JsonValue
  | .obj fields, key => lookupField fields key
  | _, _ => none

/-- Model of Value::as_i64: an integral number inside the i64 range. -/
def JsonValue.as_i64 : JsonValue → Option Int
  | .num q => if q.den = 1 ∧ -(2 ^ 63) ≤ q.num ∧ q.num < 2 ^ 63 then some q.num else none
  | _ => none

/-- Model of Value::as_f64: any JSON number. -/
def JsonValue.as_f64 : JsonValue → Option ℚ
  | .num q => some q
  | _ => none

/-- Model of Value::as_str. -/
def JsonValue.as_str : JsonValue → Option String
  | .str s => some s
  | _ => none

/-- Model of Value::as_array. -/
def JsonValue.as_array : JsonValue → Option (List JsonValue)
  | .arr elems => some elems
  | _ => none

/-- Model of Value::as_object. -/
def JsonValue.as_object : JsonValue → Option (List (String × JsonValue))
  | .obj fields => some fields
  | _ => none

/-- Rust f64::round (half away from zero) on the rational model.
For 0 ≤ q it is the floor of q + 1/2, written with a division of
nonnegative integers so that it evaluates in the kernel. -/
def rust_round (q : ℚ) : Int :=
  if 0 ≤ q.num then (2 * q.num + (q.den : Int)).fdiv (2 * (q.den : Int))
  else -((2 * (-q.num) + (q.den : Int)).fdiv (2 * (q.den : Int)))

/-- Model of reqwest StatusCode::is_success (2xx). -/
def is_success (status : Nat) : Bool := 200 ≤ status && status ≤ 299

/-- Outcome of one HTTP request: a transport error, or a status code
together with the result of parsing the body as JSON. -/
inductive HttpOutcome where
  | transportError (msg : String)
  | response (status : Nat) (body : Except String JsonValue)

/-- Model of the AuthEntry struct. -/
structure AuthEntry where
  token : Option String := none
  access : Option String := none
  refresh : Option String := none
  expires : Option Int := none
  key : Option String := none
  deriving DecidableEq

/-- Model of the GoogleAuth struct. -/
structure GoogleAuth where
  access_token : Option String := none
  refresh_token : Option String := none
  expires : Option Int := none
  project_id : Option String := none
  deriving DecidableEq

/-- Model of the UsageWindow struct. -/
structure UsageWindow where
  used_percent : Option ℚ
  remaining_percent : Option ℚ
  window_seconds : Option Int
  reset_after_seconds : Option Int
  reset_at : Option Int
  reset_at_formatted : Option String
  reset_after_formatted : Option String
  deriving DecidableEq

/-- Model of the ProviderUsage struct (windows map plus optional
per-model nested usages), with maps as association lists in insertion
order. -/
inductive ProviderUsage where
  | mk (windows : List (String × UsageWindow)) (models : Option (List (String × ProviderUsage)))

/-- Windows component of a ProviderUsage. -/
def ProviderUsage.windows : ProviderUsage → List (String × UsageWindow)
  | .mk w _ => w

/-- Models component of a ProviderUsage. -/
def ProviderUsage.models : ProviderUsage → Option (List (String × ProviderUsage))
  | .mk _ m => m

/-- Model of the ProviderResult struct. -/
structure ProviderResult where
  provider_id : String
  provider_name : String
  ok : Bool
  configured : Bool
  error : Option String
  usage : Option ProviderUsage
  fetched_at : Int

/-- Environment of one engine call: the credential-store contents, the
clock, and the outcome of every external interaction the code may
perform. authFile is the result of opencode_auth::read_auth (the
external credential-store reader of spec section 4.1); antigravityFiles
are the parse results of the two antigravity-accounts.json candidate
paths in order, none standing for a missing, empty or malformed file as
in read_json_file; fmt models format_reset_time (chrono local-time
rendering); rfc3339 models DateTime::parse_from_rfc3339 composed with
timestamp_millis; the remaining fields give the outcome each HTTP
request would have. -/
structure Env where
  authFile : Except String JsonValue
  antigravityFiles : List (Option JsonValue)
  now : Int
  fmt : Int → Option String
  rfc3339 : String → Option Int
  openaiResponse : HttpOutcome
  zaiResponse : HttpOutcome
  googleRefreshResponse : HttpOutcome
  googleEndpointResponses : List HttpOutcome

/-- Model of GOOGLE_WINDOW_SECONDS = 5 * 60 * 60. -/
def GOOGLE_WINDOW_SECONDS : Int := 5 * 60 * 60

/-- Model of DEFAULT_PROJECT_ID. -/
def DEFAULT_PROJECT_ID : String := "rising-fact-p41fc"

/-- Alias list used for the Google provider. -/
def googleAliases : List String := ["google", "antigravity"]

/-- Alias list used for the OpenAI provider. -/
def openaiAliases : List String := ["openai", "codex", "chatgpt"]

/-- Alias list used for the z.ai provider. -/
def zaiAliases : List String := ["zai-coding-plan", "zai", "z.ai"]

/-- Model of get_auth_entry: the value of the first alias present. -/
def get_auth_entry (auth : List (String × JsonValue)) : List String → Option JsonValue
  | [] => none
  | a :: rest =>
    match lookupField auth a with
    | some v => some v
    | none => get_auth_entry auth rest

/-- Model of normalize_auth_entry: a bare string is a plain token, an
object contributes its token, access, refresh, expires and key fields,
anything else is rejected. -/
def normalize_auth_entry : Option JsonValue → Option AuthEntry
  | none => none
  | some (.str token) => some { token := some token }
  | some (.obj fields) =>
    some
      { token := (lookupField fields ("token")).bind JsonValue.as_str
        access := (lookupField fields ("access")).bind JsonValue.as_str
        refresh := (lookupField fields ("refresh")).bind JsonValue.as_str
        expires :=
          ((lookupField fields ("expires")).bind JsonValue.as_i64).or
            (((lookupField fields ("expires")).bind JsonValue.as_f64).map rust_round)
        key := (lookupField fields ("key")).bind JsonValue.as_str }
  | some _ => none

/-- Model of parse_number: as_f64 falling back to as_i64 cast to float. -/
def parse_number (value : Option JsonValue) : Option ℚ :=
  value.bind fun v => (v.as_f64).or ((v.as_i64).map fun n => (n : ℚ))

/-- Model of calculate_reset_after_seconds at clock value now_ms; the
division of the source is Rust i64 division, hence Int.tdiv. -/
def calculate_reset_after_seconds (now_ms : Int) (reset_at : Option Int) : Option Int :=
  reset_at.map fun r => max ((r - now_ms).tdiv 1000) 0

/-- Model of to_usage_window at clock value now and formatter fmt. -/
def to_usage_window (now : Int) (fmt : Int → Option String) (used_percent : Option ℚ)
    (window_seconds : Option Int) (reset_at : Option Int) : UsageWindow :=
  let remaining_percent := used_percent.map fun value => max (100 - value) 0
  let reset_after_seconds := calculate_reset_after_seconds now reset_at
  let reset_formatted := reset_at.bind fmt
  { used_percent := used_percent
    remaining_percent := remaining_percent
    window_seconds := window_seconds
    reset_after_seconds := reset_after_seconds
    reset_at := reset_at
    reset_at_formatted := reset_formatted
    reset_after_formatted := reset_formatted }

/-- Model of build_result at clock value now. -/
def build_result (now : Int) (provider_id provider_name : String) (ok configured : Bool)
    (usage : Option ProviderUsage) (error : Option String) : ProviderResult :=
  { provider_id := provider_id
    provider_name := provider_name
    ok := ok
    configured := configured
    error := error
    usage := usage
    fetched_at := now }

/-- Model of load_auth_map: read_auth result must be a JSON object. -/
def load_auth_map (env : Env) : Except String (List (String × JsonValue)) :=
  match env.authFile with
  | .error e => .error e
  | .ok (.obj fields) => .ok fields
  | .ok _ => .error ("Auth file is not a valid JSON object")

/-- Model of parse_reset_time: a positive integral number is returned
unchanged; otherwise an RFC3339 string parses through the external
chrono parser rfc (already composed with timestamp_millis); everything
else is none. -/
def parse_reset_time (rfc : String → Option Int) (value : Option JsonValue) : Option Int :=
  match value with
  | none => none
  | some v =>
    match
      (match v.as_i64 with
       | some num => if 0 < num then some num else none
       | none => none) with
    | some num => some num
    | none =>
      match v.as_str with
      | some text =>
        match rfc text with
        | some parsed => some parsed
        | none => none
      | none => none

/-- Split a character list at the first occurrence of c, as Rust
str::split_once does on characters. -/
def splitOnceList (c : Char) : List Char → Option (List Char × List Char)
  | [] => none
  | a :: rest =>
    if a = c then some ([], rest)
    else
      match splitOnceList c rest with
      | some (l, r) => some (a :: l, r)
      | none => none

/-- Model of str::split_once on one character. -/
def splitOnce (s : String) (c : Char) : Option (String × String) :=
  (splitOnceList c s.data).map fun p => (p.1.asString, p.2.asString)

/-- Model of the primary branch of resolve_google_auth (source lines
393 to 407): build a GoogleAuth from the aliased auth entry, splitting a
composite refresh value at the first vertical bar. -/
def google_auth_from_entry (entry : AuthEntry) : GoogleAuth :=
  let split : Option String × Option String :=
    match entry.refresh with
    | some value =>
      match splitOnce value '|' with
      | some (first, second) => (some first, some second)
      | none => (entry.refresh, none)
    | none => (entry.refresh, none)
  { access_token := entry.access.or entry.token
    refresh_token := split.1
    expires := entry.expires
    project_id := split.2 }

/-- Model of one iteration of the antigravity-accounts fallback loop of
resolve_google_auth over one parsed file: pick the account at the
clamped active index (falling back to the first account), and require a
refreshToken; none means the loop continues with the next path. -/
def antigravity_account_auth (data : JsonValue) : Option GoogleAuth :=
  match (data.get ("accounts")).bind JsonValue.as_array with
  | none => none
  | some accounts =>
    if accounts.isEmpty then none
    else
      let index : Nat :=
        (max (((data.get ("activeIndex")).bind JsonValue.as_i64).getD 0) 0).toNat
      match (accounts.get? index).or accounts.head? with
      | none => none
      | some account =>
        match (account.get ("refreshToken")).bind JsonValue.as_str with
        | none => none
        | some refresh_token =>
          let project_id :=
            ((account.get ("projectId")).bind JsonValue.as_str).or
              ((account.get ("managedProjectId")).bind JsonValue.as_str)
          some
            { access_token := none
              refresh_token := some refresh_token
              expires := none
              project_id := project_id }

/-- Fallback loop of resolve_google_auth over the candidate files. -/
def resolve_antigravity_files : List (Option JsonValue) → Option GoogleAuth
  | [] => none
  | file :: rest =>
    match file with
    | none => resolve_antigravity_files rest
    | some data =>
      match antigravity_account_auth data with
      | some auth => some auth
      | none => resolve_antigravity_files rest

/-- Model of resolve_google_auth. -/
def resolve_google_auth (env : Env) : Except String (Option GoogleAuth) :=
  match load_auth_map env with
  | .error e => .error e
  | .ok auth =>
    match normalize_auth_entry (get_auth_entry auth googleAliases) with
    | some entry => .ok (some (google_auth_from_entry entry))
    | none => .ok (resolve_antigravity_files env.antigravityFiles)

/-- Model of refresh_google_access_token: transport errors and
non-success statuses degrade to none; an unparseable success body is
replaced by JSON null before the access_token field is read. -/
def refresh_google_access_token (outcome : HttpOutcome) : Except String (Option String) :=
  match outcome with
  | .transportError _ => .ok none
  | .response status body =>
    if is_success status then
      let payload := match body with | .ok v => v | .error _ => JsonValue.null
      .ok ((payload.get ("access_token")).bind JsonValue.as_str)
    else .ok none

/-- Endpoint failover loop of fetch_google_models: the first endpoint
answering a success status with a parseable JSON body wins; every other
failure is skipped. -/
def fetch_google_models_from : List HttpOutcome → Option JsonValue
  | [] => none
  | outcome :: rest =>
    match outcome with
    | .transportError _ => fetch_google_models_from rest
    | .response status body =>
      if is_success status then
        match body with
        | .ok payload => some payload
        | .error _ => fetch_google_models_from rest
      else fetch_google_models_from rest

/-- Per-model normalization of the Google quota payload (body of the
models loop in fetch_google_quota). -/
def google_model_usage (now : Int) (fmt : Int → Option String) (rfc : String → Option Int)
    (model_data : JsonValue) : ProviderUsage :=
  let remaining_fraction :=
    parse_number ((model_data.get ("quotaInfo")).bind fun v => v.get ("remainingFraction"))
  let remaining_percent := remaining_fraction.map fun value => ((rust_round (value * 100) : Int) : ℚ)
  let used_percent := remaining_percent.map fun value => max (100 - value) 0
  let reset_at :=
    parse_reset_time rfc ((model_data.get ("quotaInfo")).bind fun v => v.get ("resetTime"))
  ProviderUsage.mk
    [(("5h"), to_usage_window now fmt used_percent (some GOOGLE_WINDOW_SECONDS) reset_at)] none

/-- Models map built by fetch_google_quota from a successful payload. -/
def google_models (now : Int) (fmt : Int → Option String) (rfc : String → Option Int)
    (payload : JsonValue) : List (String × ProviderUsage) :=
  match (payload.get ("models")).bind JsonValue.as_object with
  | none => []
  | some model_map => model_map.map fun p => (p.1, google_model_usage now fmt rfc p.2)

/-- Success result of fetch_google_quota for a given payload. -/
def google_usage_result (env : Env) (payload : JsonValue) : ProviderResult :=
  let models := google_models env.now env.fmt env.rfc3339 payload
  build_result env.now ("google") ("Google") true true
    (some (ProviderUsage.mk [] (if models.isEmpty then none else some models))) none

/-- Phase of fetch_google_quota after the access token is settled: no
token means the refresh failed; otherwise query the endpoint list with
the resolved project id (or the built-in default). -/
def google_with_token (env : Env) (auth : GoogleAuth) (access_token : Option String) :
    ProviderResult :=
  match access_token with
  | none =>
    build_result env.now ("google") ("Google") false true none
      (some ("Failed to refresh OAuth token"))
  | some _tok =>
    let _project_id := auth.project_id.getD DEFAULT_PROJECT_ID
    match fetch_google_models_from env.googleEndpointResponses with
    | none =>
      build_result env.now ("google") ("Google") false true none (some ("Failed to fetch models"))
    | some payload => google_usage_result env payload

/-- Model of fetch_google_quota. -/
def fetch_google_quota (env : Env) : Except String ProviderResult :=
  match resolve_google_auth env with
  | .error e => .error e
  | .ok none =>
    .ok (build_result env.now ("google") ("Google") false false none (some ("Not configured")))
  | .ok (some auth) =>
    let needs_refresh :=
      auth.access_token.isNone || auth.expires.any fun expires => decide (expires ≤ env.now)
    if needs_refresh then
      match auth.refresh_token with
      | none =>
        .ok (build_result env.now ("google") ("Google") false true none
          (some ("Missing refresh token")))
      | some _refresh_token =>
        match refresh_google_access_token env.googleRefreshResponse with
        | .error e => .error e
        | .ok tok => .ok (google_with_token env auth tok)
    else .ok (google_with_token env auth auth.access_token)

/-- One window of the OpenAI payload (shared body of the primary and
secondary branches of fetch_openai_quota): used_percent via
parse_number, limit_window_seconds via as_i64, reset_at in epoch
seconds scaled to milliseconds. -/
def openai_window_from (now : Int) (fmt : Int → Option String) (window : JsonValue) :
    UsageWindow :=
  let used_percent := parse_number (window.get ("used_percent"))
  let window_seconds := (window.get ("limit_window_seconds")).bind JsonValue.as_i64
  let reset_at := ((window.get ("reset_at")).bind JsonValue.as_i64).map fun value => value * 1000
  to_usage_window now fmt used_percent window_seconds reset_at

/-- Windows map built by fetch_openai_quota from a successful payload. -/
def openai_windows (now : Int) (fmt : Int → Option String) (payload : JsonValue) :
    List (String × UsageWindow) :=
  let primary := (payload.get ("rate_limit")).bind fun value => value.get ("primary_window")
  let secondary := (payload.get ("rate_limit")).bind fun value => value.get ("secondary_window")
  (match primary with
   | some p => [(("5h"), openai_window_from now fmt p)]
   | none => []) ++
  (match secondary with
   | some s => [(("weekly"), openai_window_from now fmt s)]
   | none => [])

/-- Model of fetch_openai_quota. -/
def fetch_openai_quota (env : Env) : Except String ProviderResult :=
  match load_auth_map env with
  | .error e => .error e
  | .ok auth =>
    let entry := normalize_auth_entry (get_auth_entry auth openaiAliases)
    let access_token := entry.bind fun e => e.access.or e.token
    match access_token with
    | none =>
      .ok (build_result env.now ("openai") ("OpenAI") false false none (some ("Not configured")))
    | some _tok =>
      match env.openaiResponse with
      | .transportError msg =>
        .ok (build_result env.now ("openai") ("OpenAI") false true none (some msg))
      | .response status body =>
        if is_success status then
          match body with
          | .error msg =>
            .ok (build_result env.now ("openai") ("OpenAI") false true none (some msg))
          | .ok payload =>
            .ok (build_result env.now ("openai") ("OpenAI") true true
              (some (ProviderUsage.mk (openai_windows env.now env.fmt payload) none)) none)
        else
          .ok (build_result env.now ("openai") ("OpenAI") false true none
            (some (("API error: ") ++ toString status)))

/-- Model of normalize_timestamp of the z.ai adapter: integral values
below ten to the twelfth are epoch seconds and are scaled by 1000. -/
def normalize_timestamp (value : Option JsonValue) : Option Int :=
  value.bind fun v =>
    (v.as_i64).map fun num => if num < 1000000000000 then num * 1000 else num

/-- Model of resolve_window_seconds: number times the unit seconds,
where only unit code 3 (hours) is known. -/
def resolve_window_seconds (limit : JsonValue) : Option Int :=
  match (limit.get ("number")).bind JsonValue.as_i64 with
  | none => none
  | some number =>
    match (limit.get ("unit")).bind JsonValue.as_i64 with
    | none => none
    | some unit =>
      match (if unit = 3 then some (3600 : Int) else none) with
      | none => none
      | some unit_seconds => some (unit_seconds * number)

/-- Model of resolve_window_label; the divisions are Rust i64 division
and remainder. -/
def resolve_window_label (window_seconds : Option Int) : String :=
  match window_seconds with
  | none => "tokens"
  | some ws =>
    if ws.tmod 86400 = 0 then
      let days := ws.tdiv 86400
      if days = 7 then ("weekly") else toString days ++ "d"
    else if ws.tmod 3600 = 0 then toString (ws.tdiv 3600) ++ "h"
    else toString ws ++ "s"

/-- Selection of the TOKENS_LIMIT entry from the z.ai payload. -/
def zai_tokens_limit (payload : JsonValue) : Option JsonValue :=
  let limits :=
    ((((payload.get ("data")).bind fun value => value.get ("limits"))).bind
      JsonValue.as_array).getD []
  limits.find? fun limit => ((limit.get ("type")).bind JsonValue.as_str) == some ("TOKENS_LIMIT")

/-- Windows map built by fetch_zai_quota from a successful payload. -/
def zai_windows (now : Int) (fmt : Int → Option String) (payload : JsonValue) :
    List (String × UsageWindow) :=
  match zai_tokens_limit payload with
  | none => []
  | some limit =>
    let window_seconds := resolve_window_seconds limit
    let window_label := resolve_window_label window_seconds
    let reset_at := normalize_timestamp (limit.get ("nextResetTime"))
    let used_percent := parse_number (limit.get ("percentage"))
    [(window_label, to_usage_window now fmt used_percent window_seconds reset_at)]

/-- Model of fetch_zai_quota. -/
def fetch_zai_quota (env : Env) : Except String ProviderResult :=
  match load_auth_map env with
  | .error e => .error e
  | .ok auth =>
    let entry := normalize_auth_entry (get_auth_entry auth zaiAliases)
    let api_key := entry.bind fun e => e.key.or e.token
    match api_key with
    | none =>
      .ok (build_result env.now ("zai-coding-plan") ("z.ai") false false
        none (some ("Not configured")))
    | some _key =>
      match env.zaiResponse with
      | .transportError msg =>
        .ok (build_result env.now ("zai-coding-plan") ("z.ai") false true none (some msg))
      | .response status body =>
        if is_success status then
          match body with
          | .error msg =>
            .ok (build_result env.now ("zai-coding-plan") ("z.ai") false true none (some msg))
          | .ok payload =>
            .ok (build_result env.now ("zai-coding-plan") ("z.ai") true true
              (some (ProviderUsage.mk (zai_windows env.now env.fmt payload) none)) none)
        else
          .ok (build_result env.now ("zai-coding-plan") ("z.ai") false true none
            (some (("API error: ") ++ toString status)))

/-- Model of fetch_quota_for_provider: dispatch on the provider id. -/
def fetch_quota_for_provider (env : Env) (provider_id : String) : Except String ProviderResult :=
  match provider_id with
  | "openai" => fetch_openai_quota env
  | "google" => fetch_google_quota env
  | "zai-coding-plan" => fetch_zai_quota env
  | _ =>
    .ok (build_result env.now provider_id provider_id false false none
      (some ("Unsupported provider")))

set_option maxRecDepth 4000

/-- Invariant of spec section 3 on ProviderResult. -/
def result_invariant (r : ProviderResult) : Prop :=
  (r.ok = true → r.error = none) ∧ (r.configured = false → r.ok = false)

/-- Every build_result call with ok set to false satisfies the invariant. -/
theorem result_invariant_not_ok (now : Int) (a b : String) (c : Bool)
    (u : Option ProviderUsage) (e : Option String) :
    result_invariant (build_result now a b false c u e) :=
  ⟨fun h => (nomatch h), fun _ => rfl⟩

/-- Every build_result call with ok, configured set and no error satisfies
the invariant. -/
theorem result_invariant_ok_none (now : Int) (a b : String) (u : Option ProviderUsage) :
    result_invariant (build_result now a b true true u none) :=
  ⟨fun _ => rfl, fun h => (nomatch h)⟩

/-- All results of the post-token Google phase satisfy the invariant. -/
theorem google_with_token_invariant (env : Env) (auth : GoogleAuth) (t : Option String) :
    result_invariant (google_with_token env auth t) := by
  unfold google_with_token google_usage_result
  repeat' split
  all_goals
    first
      | exact result_invariant_not_ok _ _ _ _ _ _
      | exact result_invariant_ok_none _ _ _ _

/-- All results of the OpenAI adapter satisfy the invariant. -/
theorem fetch_openai_invariant (env : Env) (r : ProviderResult)
    (h : fetch_openai_quota env = .ok r) : result_invariant r := by
  unfold fetch_openai_quota at h
  dsimp only at h
  repeat' split at h
  all_goals
    first
      | (injection h with h
         subst h
         first
           | exact result_invariant_not_ok _ _ _ _ _ _
           | exact result_invariant_ok_none _ _ _ _)
      | injection h

/-- All results of the Google adapter satisfy the invariant. -/
theorem fetch_google_invariant (env : Env) (r : ProviderResult)
    (h : fetch_google_quota env = .ok r) : result_invariant r := by
  unfold fetch_google_quota at h
  dsimp only at h
  repeat' split at h
  all_goals
    first
      | (injection h with h
         subst h
         first
           | exact result_invariant_not_ok _ _ _ _ _ _
           | exact google_with_token_invariant _ _ _)
      | injection h

/-- All results of the z.ai adapter satisfy the invariant. -/
theorem fetch_zai_invariant (env : Env) (r : ProviderResult)
    (h : fetch_zai_quota env = .ok r) : result_invariant r := by
  unfold fetch_zai_quota at h
  dsimp only at h
  repeat' split at h
  all_goals
    first
      | (injection h with h
         subst h
         first
           | exact result_invariant_not_ok _ _ _ _ _ _
           | exact result_invariant_ok_none _ _ _ _)
      | injection h

/-- C1: every ProviderResult returned by fetch_quota_for_provider, for
any provider id, any credential-store content and any network outcome,
satisfies: ok = true implies error = none, and configured = false
implies ok = false. -/
theorem c1_provider_result_invariant :
    ∀ (env : Env) (provider_id : String) (r : ProviderResult),
      fetch_quota_for_provider env provider_id = .ok r → result_invariant r := by
  intro env pid r h
  unfold fetch_quota_for_provider at h
  split at h
  · exact fetch_openai_invariant _ _ h
  · exact fetch_google_invariant _ _ h
  · exact fetch_zai_invariant _ _ h
  · injection h with h
    subst h
    exact result_invariant_not_ok _ _ _ _ _ _

/-- Environment used to instantiate the C1 invariant. -/
def c1_env : Env :=
  { authFile := .error ("")
    antigravityFiles := []
    now := 0
    fmt := fun _ => none
    rfc3339 := fun _ => none
    openaiResponse := .transportError ("")
    zaiResponse := .transportError ("")
    googleRefreshResponse := .transportError ("")
    googleEndpointResponses := [] }

/-- Witness for C1 at a concrete environment and provider id. -/
theorem c1_provider_result_invariant_witness :
    result_invariant (build_result 0 ("anthropic") ("anthropic") false false none
      (some ("Unsupported provider"))) :=
  c1_provider_result_invariant c1_env ("anthropic")
    (build_result 0 ("anthropic") ("anthropic") false false none
      (some ("Unsupported provider"))) rfl

/-- C9: every provider id other than openai, google and zai-coding-plan
yields, without raising, a result with ok false, configured false and
error Unsupported provider. -/
theorem c9_unsupported_provider :
    ∀ (env : Env) (provider_id : String),
      provider_id ≠ "openai" → provider_id ≠ "google" → provider_id ≠ "zai-coding-plan" →
      fetch_quota_for_provider env provider_id =
        .ok (build_result env.now provider_id provider_id false false none
          (some ("Unsupported provider"))) ∧
      (build_result env.now provider_id provider_id false false none
        (some ("Unsupported provider"))).ok = false ∧
      (build_result env.now provider_id provider_id false false none
        (some ("Unsupported provider"))).configured = false ∧
      (build_result env.now provider_id provider_id false false none
        (some ("Unsupported provider"))).error = some ("Unsupported provider") := by
  intro env pid h1 h2 h3
  refine ⟨?_, rfl, rfl, rfl⟩
  unfold fetch_quota_for_provider
  split
  all_goals first | rfl | simp_all

/-- Environment used to instantiate C9. -/
def c9_env : Env :=
  { authFile := .error ("")
    antigravityFiles := []
    now := 0
    fmt := fun _ => none
    rfc3339 := fun _ => none
    openaiResponse := .transportError ("")
    zaiResponse := .transportError ("")
    googleRefreshResponse := .transportError ("")
    googleEndpointResponses := [] }

/-- Witness for C9 at the provider id anthropic. -/
theorem c9_unsupported_provider_witness :
    fetch_quota_for_provider c9_env ("anthropic") =
      .ok (build_result 0 ("anthropic") ("anthropic") false false none
        (some ("Unsupported provider"))) :=
  (c9_unsupported_provider c9_env ("anthropic") (by decide) (by decide) (by decide)).1

/-- C7: the z.ai window label is Nd when the window seconds divide
evenly by 86400 (weekly when the quotient is exactly 7 days), else Nh
when they divide evenly by 3600, else Ns, and tokens when the window
seconds are unknown; in particular 86400 gives 1d, 604800 gives weekly
and 3600 gives 1h. Divisions are Rust i64 divisions. -/
theorem c7_zai_window_label :
    resolve_window_label none = "tokens" ∧
    (∀ ws : Int, ws.tmod 86400 = 0 → ws.tdiv 86400 = 7 →
      resolve_window_label (some ws) = "weekly") ∧
    (∀ ws : Int, ws.tmod 86400 = 0 → ws.tdiv 86400 ≠ 7 →
      resolve_window_label (some ws) = toString (ws.tdiv 86400) ++ "d") ∧
    (∀ ws : Int, ws.tmod 86400 ≠ 0 → ws.tmod 3600 = 0 →
      resolve_window_label (some ws) = toString (ws.tdiv 3600) ++ "h") ∧
    (∀ ws : Int, ws.tmod 86400 ≠ 0 → ws.tmod 3600 ≠ 0 →
      resolve_window_label (some ws) = toString ws ++ "s") ∧
    resolve_window_label (some 86400) = "1d" ∧
    resolve_window_label (some 604800) = "weekly" ∧
    resolve_window_label (some 3600) = "1h" := by
  refine ⟨rfl, ?_, ?_, ?_, ?_, by decide, by decide, by decide⟩
  · intro ws h1 h2
    simp [resolve_window_label, h1, h2]
  · intro ws h1 h2
    simp [resolve_window_label, h1, h2]
  · intro ws h1 h2
    simp [resolve_window_label, h1, h2]
  · intro ws h1 h2
    simp [resolve_window_label, h1, h2]

/-- Witness for C7 on window values with nontrivial day, hour and
second labels. -/
theorem c7_zai_window_label_witness :
    resolve_window_label (some 172800) = ("2d") ∧
    resolve_window_label (some 7200) = ("2h") ∧
    resolve_window_label (some 90) = ("90s") :=
  ⟨c7_zai_window_label.2.2.1 172800 (by decide) (by decide),
   c7_zai_window_label.2.2.2.1 7200 (by decide) (by decide),
   c7_zai_window_label.2.2.2.2.1 90 (by decide) (by decide)⟩

/-- C3: a window produced by the normalizer has remaining percentage
max (100 - used) 0 whenever the used percentage is present (hence
100 - used when used is at most 100, and 0 when used exceeds 100), and
no remaining percentage when the used percentage is absent. -/
theorem c3_remaining_percent :
    ∀ (now : Int) (fmt : Int → Option String) (ws ra : Option Int),
      (to_usage_window now fmt none ws ra).remaining_percent = none ∧
      ∀ u : ℚ,
        (to_usage_window now fmt (some u) ws ra).remaining_percent = some (max (100 - u) 0) ∧
        (u ≤ 100 → (to_usage_window now fmt (some u) ws ra).remaining_percent = some (100 - u)) ∧
        (100 < u → (to_usage_window now fmt (some u) ws ra).remaining_percent = some 0) := by
  intro now fmt ws ra
  refine ⟨rfl, fun u => ⟨rfl, fun h => ?_, fun h => ?_⟩⟩
  · show some (max (100 - u) 0) = some (100 - u)
    rw [max_eq_left (by linarith)]
  · show some (max (100 - u) 0) = some 0
    rw [max_eq_right (by linarith)]

/-- Witness for C3 at used percentages 40 and 150. -/
theorem c3_remaining_percent_witness :
    (to_usage_window 0 (fun _ => none) (some 40) none none).remaining_percent =
      some (100 - 40) ∧
    (to_usage_window 0 (fun _ => none) (some 150) none none).remaining_percent = some 0 :=
  ⟨((c3_remaining_percent 0 (fun _ => none) none none).2 40).2.1 (by norm_num),
   ((c3_remaining_percent 0 (fun _ => none) none none).2 150).2.2 (by norm_num)⟩

/-- C2 (amended): a window produced by the normalizer has
resetAfterSeconds equal to max of 0 and the Rust-truncated integer
quotient of (resetAtMillis - nowMillis) by 1000 (the source divides
i64 values, it does not round); absent when resetAtMillis is absent;
and exactly 0, never negative, for every reset time not after now. -/
theorem c2_reset_after_seconds :
    ∀ (now : Int) (fmt : Int → Option String) (used : Option ℚ) (ws : Option Int),
      (to_usage_window now fmt used ws none).reset_after_seconds = none ∧
      ∀ ra : Int,
        (to_usage_window now fmt used ws (some ra)).reset_after_seconds =
          some (max ((ra - now).tdiv 1000) 0) ∧
        (ra ≤ now → (to_usage_window now fmt used ws (some ra)).reset_after_seconds = some 0) := by
  intro now fmt used ws
  refine ⟨rfl, fun ra => ⟨rfl, fun h => ?_⟩⟩
  show some (max ((ra - now).tdiv 1000) 0) = some 0
  have h1 : (ra - now).tdiv 1000 ≤ 0 := by
    have h2 : (0 : Int) ≤ (-(ra - now)).tdiv 1000 :=
      Int.tdiv_nonneg (by linarith) (by norm_num)
    rw [Int.neg_tdiv] at h2
    linarith
  rw [max_eq_right h1]

/-- Counterexample to C2 as stated: at nowMillis 0 and resetAtMillis
1999 the code computes 1 second (truncating division) while the
rounded formula of the claim gives 2 seconds. -/
theorem c2_reset_after_seconds_counterexample :
    calculate_reset_after_seconds 0 (some 1999) = some 1 ∧
    max 0 (rust_round ((((1999 : ℚ)) - 0) / 1000)) = 2 ∧
    calculate_reset_after_seconds 0 (some 1999) ≠
      some (max 0 (rust_round ((((1999 : ℚ)) - 0) / 1000))) := by
  refine ⟨by decide, ?_, ?_⟩
  · with_unfolding_all decide
  · with_unfolding_all decide

/-- Witness for C2 at a reset time in the past. -/
theorem c2_reset_after_seconds_witness :
    (to_usage_window 1000 (fun _ => none) none none (some 500)).reset_after_seconds = some 0 :=
  ((c2_reset_after_seconds 1000 (fun _ => none) none none).2 500).2 (by decide)

/-- C4 (amended): the Google window duration constant is 18000 seconds;
the adapter emits exactly one window labeled 5h per model entry; and
when quotaInfo.remainingFraction is a number q, the used percentage is
max (100 - round(q * 100)) 0, the clamp mattering once round(q * 100)
exceeds 100. -/
theorem c4_google_model_window :
    GOOGLE_WINDOW_SECONDS = 18000 ∧
    (∀ (now : Int) (fmt : Int → Option String) (rfc : String → Option Int)
      (payload : JsonValue) (model_map : List (String × JsonValue)),
      (payload.get ("models")).bind JsonValue.as_object = some model_map →
      google_models now fmt rfc payload =
        model_map.map fun p => (p.1, google_model_usage now fmt rfc p.2)) ∧
    (∀ (now : Int) (fmt : Int → Option String) (rfc : String → Option Int)
      (model_data : JsonValue) (q : ℚ),
      parse_number ((model_data.get ("quotaInfo")).bind fun v =>
        v.get ("remainingFraction")) = some q →
      google_model_usage now fmt rfc model_data =
        ProviderUsage.mk
          [(("5h"), to_usage_window now fmt
            (some (max (100 - ((rust_round (q * 100) : Int) : ℚ)) 0))
            (some GOOGLE_WINDOW_SECONDS)
            (parse_reset_time rfc ((model_data.get ("quotaInfo")).bind fun v =>
              v.get ("resetTime"))))] none) := by
  refine ⟨rfl, ?_, ?_⟩
  · intro now fmt rfc payload model_map h
    unfold google_models
    rw [h]
  · intro now fmt rfc model_data q h
    simp only [google_model_usage, h, Option.map_some']

/-- Payload entry refuting the unclamped used formula of C4. -/
def c4_model_data : JsonValue :=
  .obj [(("quotaInfo"), .obj [(("remainingFraction"), .num 2)])]

/-- Counterexample to C4 as stated: at remainingFraction 2 the emitted
used percentage is 0 while the unclamped formula of the claim gives
100 - round(2 * 100) = -100. -/
theorem c4_used_percent_counterexample :
    ((google_model_usage 0 (fun _ => none) (fun _ => none) c4_model_data).windows.map
      fun p => (p.1, p.2.used_percent)) = [(("5h"), some (0 : ℚ))] ∧
    (100 : ℚ) - ((rust_round ((2 : ℚ) * 100) : Int) : ℚ) = -100 ∧
    some (0 : ℚ) ≠ some ((100 : ℚ) - ((rust_round ((2 : ℚ) * 100) : Int) : ℚ)) := by
  refine ⟨?_, ?_, ?_⟩ <;> with_unfolding_all decide

/-- Payload entry instantiating C4. -/
def c4_witness_data : JsonValue :=
  .obj [(("quotaInfo"), .obj [(("remainingFraction"), .num 0)])]

/-- Witness for C4 at remainingFraction 0. -/
theorem c4_google_model_window_witness :
    google_model_usage 0 (fun _ => none) (fun _ => none) c4_witness_data =
      ProviderUsage.mk
        [(("5h"), to_usage_window 0 (fun _ => none)
          (some (max (100 - ((rust_round ((0 : ℚ) * 100) : Int) : ℚ)) 0))
          (some GOOGLE_WINDOW_SECONDS)
          (parse_reset_time (fun _ => none)
            ((c4_witness_data.get ("quotaInfo")).bind fun v => v.get ("resetTime"))))] none :=
  c4_google_model_window.2.2 0 (fun _ => none) (fun _ => none) c4_witness_data 0 rfl

/-- C5 (amended): parse_reset_time keeps a positive integral resetTime
unchanged (no seconds-to-milliseconds scaling happens on numbers),
yields none on a non-positive integral number, and delegates a string
to the external RFC3339 parser. -/
theorem c5_reset_time_parse :
    ∀ rfc : String → Option Int,
      (∀ n : Int, 0 < n → n < 2 ^ 63 →
        parse_reset_time rfc (some (.num (n : ℚ))) = some n) ∧
      (∀ n : Int, -(2 ^ 63) ≤ n → n ≤ 0 →
        parse_reset_time rfc (some (.num (n : ℚ))) = none) ∧
      (∀ s : String, parse_reset_time rfc (some (.str s)) = rfc s) ∧
      parse_reset_time rfc none = none := by
  intro rfc
  refine ⟨?_, ?_, ?_, rfl⟩
  · intro n h1 h2
    have h2n : n < 9223372036854775808 := by norm_num at h2 ⊢; exact h2
    have hln : -9223372036854775808 ≤ n := le_trans (by norm_num) h1.le
    simp [parse_reset_time, JsonValue.as_i64, Rat.den_intCast, Rat.num_intCast, h1, h2n, hln]
  · intro n h1 h2
    have h3 : ¬ (0 < n) := not_lt.mpr h2
    have h4 : n < 9223372036854775808 := lt_of_le_of_lt h2 (by norm_num)
    have hln : -9223372036854775808 ≤ n := by norm_num at h1 ⊢; exact h1
    simp [parse_reset_time, JsonValue.as_i64, JsonValue.as_str, Rat.den_intCast,
      Rat.num_intCast, h3, h4, hln]
  · intro s
    cases h : rfc s <;> simp [parse_reset_time, JsonValue.as_i64, JsonValue.as_str, h]

/-- Counterexample to C5 as stated: an epoch-seconds integer is
returned verbatim, not multiplied by 1000. -/
theorem c5_reset_time_counterexample :
    parse_reset_time (fun _ => none) (some (JsonValue.num ((1700000000 : Int) : ℚ))) =
      some 1700000000 ∧
    parse_reset_time (fun _ => none) (some (JsonValue.num ((1700000000 : Int) : ℚ))) ≠
      some ((1700000000 : Int) * 1000) := by
  have h1 : (0 : Int) < 1700000000 := by norm_num
  have h2 : (1700000000 : Int) < 2 ^ 63 := by norm_num
  have hl : -(2 ^ 63 : Int) ≤ 1700000000 := by norm_num
  have he : parse_reset_time (fun _ => none) (some (JsonValue.num ((1700000000 : Int) : ℚ))) =
      some 1700000000 := by
    simp [parse_reset_time, JsonValue.as_i64, Rat.den_intCast, Rat.num_intCast, h1, h2, hl]
  refine ⟨he, ?_⟩
  rw [he]
  decide

/-- Witness for C5 at the integer 5 and at a string. -/
theorem c5_reset_time_parse_witness :
    parse_reset_time (fun _ => none) (some (JsonValue.num ((5 : Int) : ℚ))) = some 5 ∧
    parse_reset_time (fun _ => none) (some (JsonValue.str (""))) = none :=
  ⟨(c5_reset_time_parse (fun _ => none)).1 5 (by decide) (by decide),
   (c5_reset_time_parse (fun _ => none)).2.2.1 ("")⟩

/-- splitOnceList finds nothing when the separator is absent. -/
theorem splitOnceList_eq_none (c : Char) : ∀ xs : List Char, c ∉ xs → splitOnceList c xs = none
  | [], _ => rfl
  | a :: rest, h => by
    have hne : a ≠ c := by rintro rfl; exact h (List.mem_cons_self a rest)
    have ih := splitOnceList_eq_none c rest (fun hm => h (List.mem_cons_of_mem a hm))
    simp [splitOnceList, hne, ih]

/-- splitOnceList splits exactly at the first separator occurrence. -/
theorem splitOnceList_append (c : Char) : ∀ l r : List Char, c ∉ l →
    splitOnceList c (l ++ c :: r) = some (l, r)
  | [], r, _ => by simp [splitOnceList]
  | a :: l, r, h => by
    have hne : a ≠ c := by rintro rfl; exact h (List.mem_cons_self a l)
    have ih := splitOnceList_append c l r (fun hm => h (List.mem_cons_of_mem a hm))
    simp [splitOnceList, hne, ih]

/-- C6: when the stored Google refresh string contains a vertical bar,
the resolver splits it at the first bar into refresh token and project
id (the only project id a primary credential can carry); without a bar
the whole string stays the refresh token and the project id stays
unset, so the fetch later falls back to the built-in default project. -/
theorem c6_composite_refresh_token :
    ∀ (entry : AuthEntry) (s : String), entry.refresh = some s →
      (∀ l r : String, s = l ++ ("|") ++ r → ('|') ∉ l.data →
        (google_auth_from_entry entry).refresh_token = some l ∧
        (google_auth_from_entry entry).project_id = some r) ∧
      (('|') ∉ s.data →
        (google_auth_from_entry entry).refresh_token = some s ∧
        (google_auth_from_entry entry).project_id = none) := by
  intro entry s hr
  constructor
  · intro l r hs hl
    have hd : s.data = l.data ++ '|' :: r.data := by
      rw [hs, String.data_append, String.data_append, List.append_assoc]
      rfl
    have hsplit : splitOnce s '|' = some (l, r) := by
      unfold splitOnce
      rw [hd, splitOnceList_append '|' l.data r.data hl]
      show some (l.data.asString, r.data.asString) = some (l, r)
      rw [show l.data.asString = l from String.asString_toList l,
        show r.data.asString = r from String.asString_toList r]
    constructor <;> simp [google_auth_from_entry, hr, hsplit]
  · intro hnot
    have hsplit : splitOnce s '|' = none := by
      unfold splitOnce
      rw [splitOnceList_eq_none '|' s.data hnot]
      rfl
    constructor <;> simp [google_auth_from_entry, hr, hsplit]

/-- Witness for C6 on the composite input from the spec example. -/
theorem c6_composite_refresh_token_witness :
    (google_auth_from_entry { refresh := some ("abc123|proj-9") }).refresh_token =
      some ("abc123") ∧
    (google_auth_from_entry { refresh := some ("abc123|proj-9") }).project_id =
      some ("proj-9") :=
  (c6_composite_refresh_token { refresh := some ("abc123|proj-9") } ("abc123|proj-9") rfl).1
    ("abc123") ("proj-9") (by decide) (by decide)

/-- The refresh condition of fetch_google_quota is false when an access
token is present and any recorded expiry is strictly in the future. -/
theorem google_refresh_condition_false (env : Env) (auth : GoogleAuth) (tok : String)
    (ha : auth.access_token = some tok) (hexp : ∀ e : Int, auth.expires = some e → env.now < e) :
    (auth.access_token.isNone ||
      auth.expires.any fun expires => decide (expires ≤ env.now)) = false := by
  rw [ha]
  cases he : auth.expires with
  | none => simp [Option.any]
  | some e =>
    have hlt := hexp e he
    simp [Option.any, decide_eq_false (not_le.mpr hlt)]

/-- The fresh-token fast path of fetch_google_quota. -/
theorem fetch_google_quota_use_token (env : Env) (auth : GoogleAuth)
    (hres : resolve_google_auth env = .ok (some auth)) (tok : String)
    (ha : auth.access_token = some tok)
    (hexp : ∀ e : Int, auth.expires = some e → env.now < e) :
    fetch_google_quota env = .ok (google_with_token env auth (some tok)) := by
  unfold fetch_google_quota
  rw [hres]
  dsimp only
  rw [google_refresh_condition_false env auth tok ha hexp]
  simp [ha]

/-- C8: in the Google fetch, an access token with no recorded expiry or
a strictly future expiry is used directly, independently of the refresh
outcome; otherwise, when the refresh token is also absent, the fetch is
a terminal failure with configured true, ok false and error Missing
refresh token. -/
theorem c8_google_access_token_path :
    ∀ (env : Env) (auth : GoogleAuth),
      resolve_google_auth env = .ok (some auth) →
      (∀ tok : String, auth.access_token = some tok →
        (∀ e : Int, auth.expires = some e → env.now < e) →
        fetch_google_quota env = .ok (google_with_token env auth (some tok)) ∧
        ∀ o : HttpOutcome,
          fetch_google_quota { env with googleRefreshResponse := o } =
            .ok (google_with_token env auth (some tok))) ∧
      ((auth.access_token = none ∨ ∃ e : Int, auth.expires = some e ∧ e ≤ env.now) →
        auth.refresh_token = none →
        fetch_google_quota env =
          .ok (build_result env.now ("google") ("Google") false true none
            (some ("Missing refresh token")))) := by
  intro env auth hres
  constructor
  · intro tok ha hexp
    refine ⟨fetch_google_quota_use_token env auth hres tok ha hexp, fun o => ?_⟩
    have hres2 : resolve_google_auth { env with googleRefreshResponse := o } =
        .ok (some auth) := hres
    exact fetch_google_quota_use_token { env with googleRefreshResponse := o } auth hres2
      tok ha hexp
  · intro hcond hrt
    unfold fetch_google_quota
    rw [hres]
    dsimp only
    have ht : (auth.access_token.isNone ||
        auth.expires.any fun expires => decide (expires ≤ env.now)) = true := by
      rcases hcond with h | ⟨e, he, hle⟩
      · simp [h]
      · simp [he, Option.any, hle]
    rw [ht]
    simp [hrt]

/-- Environment used to instantiate C8. -/
def c8_env : Env :=
  { authFile := .ok (.obj [(("google"), .obj [(("access"), .str ("tok"))])])
    antigravityFiles := []
    now := 0
    fmt := fun _ => none
    rfc3339 := fun _ => none
    openaiResponse := .transportError ("")
    zaiResponse := .transportError ("")
    googleRefreshResponse := .transportError ("")
    googleEndpointResponses := [] }

/-- Credential resolved from c8_env. -/
def c8_auth : GoogleAuth := { access_token := some ("tok") }

/-- Witness for C8: the stored access token is used directly. -/
theorem c8_google_access_token_path_witness :
    fetch_google_quota c8_env = .ok (google_with_token c8_env c8_auth (some ("tok"))) :=
  ((c8_google_access_token_path c8_env c8_auth rfl).1 ("tok") rfl
    (fun _ he => (nomatch he))).1

/-- C10 (amended): when the first matching Google alias entry is a
string or an object (an empty object included), the resolver builds the
credential from that entry alone and the antigravity-accounts files are
never consulted; the fallback is reached when no alias matches or when
the matching entry normalizes to nothing (for example JSON null). -/
theorem c10_alias_entry_short_circuit :
    ∀ (env : Env) (fields : List (String × JsonValue)) (v : JsonValue) (entry : AuthEntry),
      load_auth_map env = .ok fields →
      get_auth_entry fields googleAliases = some v →
      normalize_auth_entry (some v) = some entry →
      resolve_google_auth env = .ok (some (google_auth_from_entry entry)) ∧
      ∀ files : List (Option JsonValue),
        resolve_google_auth { env with antigravityFiles := files } =
          .ok (some (google_auth_from_entry entry)) := by
  intro env fields v entry hload hget hnorm
  constructor
  · simp [resolve_google_auth, hload, hget, hnorm]
  · intro files
    have hload2 : load_auth_map { env with antigravityFiles := files } = .ok fields := hload
    simp [resolve_google_auth, hload2, hget, hnorm]

/-- Multi-account file content used by the C10 statements. -/
def c10_file : JsonValue :=
  .obj [(("accounts"), .arr [.obj [(("refreshToken"), .str ("r"))]])]

/-- Environment whose alias entry is JSON null and whose account file is
present. -/
def c10_env_with_file : Env :=
  { authFile := .ok (.obj [(("google"), JsonValue.null)])
    antigravityFiles := [some c10_file]
    now := 0
    fmt := fun _ => none
    rfc3339 := fun _ => none
    openaiResponse := .transportError ("")
    zaiResponse := .transportError ("")
    googleRefreshResponse := .transportError ("")
    googleEndpointResponses := [] }

/-- The same environment with no account files. -/
def c10_env_without_file : Env := { c10_env_with_file with antigravityFiles := [] }

/-- Credential the resolver derives from the account file of C10. -/
def c10_auth : GoogleAuth :=
  { access_token := none
    refresh_token := some ("r")
    expires := none
    project_id := none }

/-- Counterexample to C10 as stated: with a matching alias entry that is
JSON null, the resolver still consults the account files, and its result
changes when they change. -/
theorem c10_alias_entry_counterexample :
    (get_auth_entry [(("google"), JsonValue.null)] googleAliases).isSome = true ∧
    resolve_google_auth c10_env_with_file = .ok (some c10_auth) ∧
    resolve_google_auth c10_env_without_file = .ok none ∧
    resolve_google_auth c10_env_with_file ≠ resolve_google_auth c10_env_without_file :=
  ⟨rfl, rfl, rfl, fun hcontra => Option.noConfusion (Except.ok.inj hcontra)⟩

/-- Environment whose alias entry is an empty object. -/
def c10_env_alias : Env :=
  { authFile := .ok (.obj [(("google"), .obj [])])
    antigravityFiles := [some c10_file]
    now := 0
    fmt := fun _ => none
    rfc3339 := fun _ => none
    openaiResponse := .transportError ("")
    zaiResponse := .transportError ("")
    googleRefreshResponse := .transportError ("")
    googleEndpointResponses := [] }

/-- Witness for C10: an empty-object alias entry short-circuits the
fallback whatever the account files hold. -/
theorem c10_alias_entry_short_circuit_witness :
    resolve_google_auth c10_env_alias = .ok (some (google_auth_from_entry {})) ∧
    resolve_google_auth { c10_env_alias with antigravityFiles := [] } =
      .ok (some (google_auth_from_entry {})) :=
  ⟨(c10_alias_entry_short_circuit c10_env_alias [(("google"), .obj [])] (.obj []) {}
      rfl rfl rfl).1,
   (c10_alias_entry_short_circuit c10_env_alias [(("google"), .obj [])] (.obj []) {}
      rfl rfl rfl).2 []⟩
